/-
  Verification of the CityPulse location-analysis pipeline.

  Shallow embedding of the scoring core (vibe label rules, weight
  normalization, safety scoring, amenities scoring, provider cascades,
  confidence tiers, pros/cons generation, and the postal-code TTL cache)
  translated from the TypeScript sources, with theorems checking the
  natural-language specification against the embedded code.

  JavaScript numbers are modelled as rationals (ℚ); `Math.round` is
  modelled as `⌊x + 1/2⌋` (JS rounds half toward +∞); fallible or
  nullable values are modelled with `Option`.
-/
import Mathlib

namespace CityPulse

/-! ## Data model (src/server/src/types.ts) -/

/-- A point of interest as produced by the provider cascades.  Only the
fields read by the scoring code are embedded. -/
structure POI where
  id : String
  name : String
  category : String
  distance : ℚ
  deriving Repr, DecidableEq

/-- The five category sub-scores of an `AmenitiesScore`. -/
structure AmenityCategories where
  grocery : ℚ
  dining : ℚ
  healthcare : ℚ
  entertainment : ℚ
  shopping : ℚ
  deriving Repr, DecidableEq

/-- The highlight counters of an `AmenitiesScore`. -/
structure AmenityHighlights where
  totalPOIs : ℕ
  groceryStores : ℕ
  restaurants : ℕ
  healthcare : ℕ
  parks : ℕ
  gyms : ℕ
  deriving Repr, DecidableEq

/-- The amenities profile returned by `calculateAmenitiesScore`
(src/server/src/services/osm-amenities.ts).  `nearestByCategory` is the
TS `Record<string, POI>` modelled as a function to `Option POI`. -/
structure AmenitiesScore where
  overall : ℤ
  categories : AmenityCategories
  highlights : AmenityHighlights
  isFoodDesert : Bool
  nearestByCategory : String → Option POI

/-- JS `Math.round`: round half toward positive infinity. -/
def roundJS (x : ℚ) : ℤ := ⌊x + 1/2⌋

/-! ## AmenityScorer (src/server/src/services/osm-amenities.ts, calculateAmenitiesScore) -/

/-- Count of POIs in a given category (the `counts` record built by the
first loop of `calculateAmenitiesScore`; a missing key reads as 0). -/
def countCat (pois : List POI) (cat : String) : ℕ :=
  (pois.filter (fun p => p.category == cat)).length

/-- The single pass keeping, per category, the first POI seen with
minimal distance (the `nearestByCategory` loop: replace only on a
strictly smaller distance). -/
def nearestFold (pois : List POI) : String → Option POI :=
  pois.foldl
    (fun acc poi => fun c =>
      if c = poi.category then
        match acc poi.category with
        | none => some poi
        | some old => if poi.distance < old.distance then some poi else some old
      else acc c)
    (fun _ => none)

/-- `calculateAmenitiesScore` from src/server/src/services/osm-amenities.ts. -/
def calculateAmenitiesScore (pois : List POI) : AmenitiesScore :=
  let grocery := countCat pois "grocery"
  let restaurant := countCat pois "restaurant"
  let pharmacy := countCat pois "pharmacy"
  let healthcare := countCat pois "healthcare"
  let park := countCat pois "park"
  let gym := countCat pois "gym"
  let bank := countCat pois "bank"
  let hasGrocery := 0 < grocery
  let groceryScore : ℚ := min 100 (grocery * 25)
  let diningScore : ℚ := min 100 (restaurant * 10)
  let healthcareScore : ℚ := min 100 ((healthcare + pharmacy) * 20)
  let entertainmentScore : ℚ := min 100 ((park + gym) * 15)
  let shoppingScore : ℚ := min 100 ((grocery + bank) * 20)
  let overall := roundJS
    (groceryScore * (25/100) + diningScore * (20/100) + healthcareScore * (25/100) +
     entertainmentScore * (15/100) + shoppingScore * (15/100))
  { overall := overall
    categories :=
      { grocery := groceryScore, dining := diningScore, healthcare := healthcareScore,
        entertainment := entertainmentScore, shopping := shoppingScore }
    highlights :=
      { totalPOIs := pois.length, groceryStores := grocery, restaurants := restaurant,
        healthcare := healthcare + pharmacy, parks := park, gyms := gym }
    isFoodDesert := !hasGrocery
    nearestByCategory := nearestFold pois }

/-! ## Vibe engine: label rules (src/server/src/services/vibe.ts, LABEL_RULES) -/

/-- The four sub-scores fed into the vibe engine (`breakdown`). -/
structure Breakdown where
  safety : ℚ
  walkability : ℚ
  transit : ℚ
  amenities : ℚ
  deriving Repr, DecidableEq

/-- A label-classification rule (interface LabelRule in vibe.ts). -/
structure LabelRule where
  label : String
  check : Breakdown → AmenitiesScore → Bool
  priority : ℕ

/-- The `LABEL_RULES` array from vibe.ts, in declared order. -/
def LABEL_RULES : List LabelRule :=
  [ { label := "food_desert"
      check := fun _ a => a.isFoodDesert
      priority := 100 }
  , { label := "urban_oasis"
      check := fun b _ => decide (b.walkability ≥ 85 ∧ b.safety ≥ 75 ∧ b.amenities ≥ 80)
      priority := 90 }
  , { label := "needs_attention"
      check := fun b _ =>
        decide (2 ≤ ([b.safety, b.walkability, b.transit, b.amenities].filter
          (fun s => decide (s < 40))).length)
      priority := 85 }
  , { label := "transit_hub"
      check := fun b _ => decide (b.transit ≥ 80 ∧ b.walkability < 70)
      priority := 70 }
  , { label := "hidden_gem"
      check := fun b _ => decide (b.safety ≥ 85 ∧ b.walkability ≥ 50 ∧ b.walkability < 75)
      priority := 65 }
  , { label := "suburban_comfort"
      check := fun b _ =>
        decide (b.safety ≥ 70 ∧ b.walkability ≥ 30 ∧ b.walkability < 70 ∧ b.amenities ≥ 50)
      priority := 60 }
  , { label := "car_country"
      check := fun b _ => decide (b.walkability < 40 ∧ b.safety ≥ 60 ∧ b.amenities ≥ 40)
      priority := 55 }
  , { label := "up_and_coming"
      check := fun b _ =>
        decide ((b.safety + b.walkability + b.transit + b.amenities) / 4 ≥ 50 ∧
          (b.safety + b.walkability + b.transit + b.amenities) / 4 < 70 ∧ b.safety ≥ 55)
      priority := 50 }
  , { label := "balanced"
      check := fun _ _ => true
      priority := 0 }
  ]

/-- The `[...LABEL_RULES].sort((a, b) => b.priority - a.priority)` step of
`calculateVibeScore`: a stable sort by descending priority. -/
def sortedRules : List LabelRule :=
  LABEL_RULES.insertionSort (fun a b => b.priority ≤ a.priority)

/-- The label-selection loop of `calculateVibeScore`: walk the sorted
rules, return the first matching label, defaulting to `balanced`. -/
def determineLabel (b : Breakdown) (a : AmenitiesScore) : String :=
  match sortedRules.find? (fun r => r.check b a) with
  | some r => r.label
  | none => "balanced"

/-- The spec's classification table (§4.4 of the spec), written as an
explicit first-match-wins cascade in the table's priority order. -/
def labelSpecTable (b : Breakdown) (a : AmenitiesScore) : String :=
  if a.isFoodDesert then "food_desert"
  else if b.walkability ≥ 85 ∧ b.safety ≥ 75 ∧ b.amenities ≥ 80 then "urban_oasis"
  else if 2 ≤ ([b.safety, b.walkability, b.transit, b.amenities].filter
      (fun s => decide (s < 40))).length then "needs_attention"
  else if b.transit ≥ 80 ∧ b.walkability < 70 then "transit_hub"
  else if b.safety ≥ 85 ∧ b.walkability ≥ 50 ∧ b.walkability < 75 then "hidden_gem"
  else if b.safety ≥ 70 ∧ b.walkability ≥ 30 ∧ b.walkability < 70 ∧ b.amenities ≥ 50 then
    "suburban_comfort"
  else if b.walkability < 40 ∧ b.safety ≥ 60 ∧ b.amenities ≥ 40 then "car_country"
  else if (b.safety + b.walkability + b.transit + b.amenities) / 4 ≥ 50 ∧
      (b.safety + b.walkability + b.transit + b.amenities) / 4 < 70 ∧ b.safety ≥ 55 then
    "up_and_coming"
  else "balanced"

/-! ## Vibe engine: weight handling (src/server/src/services/vibe.ts, calculateVibeScore) -/

/-- The four vibe weights (interface VibeFactors in types.ts). -/
structure VibeFactors where
  safetyWeight : ℚ
  walkabilityWeight : ℚ
  transitWeight : ℚ
  amenitiesWeight : ℚ
  deriving Repr, DecidableEq

/-- A caller-supplied partial override (TS `Partial<VibeFactors>`). -/
structure PartialVibeFactors where
  safetyWeight : Option ℚ
  walkabilityWeight : Option ℚ
  transitWeight : Option ℚ
  amenitiesWeight : Option ℚ
  deriving Repr, DecidableEq

/-- `DEFAULT_WEIGHTS` from vibe.ts. -/
def DEFAULT_WEIGHTS : VibeFactors :=
  { safetyWeight := 35/100, walkabilityWeight := 25/100,
    transitWeight := 15/100, amenitiesWeight := 25/100 }

/-- The `{ ...DEFAULT_WEIGHTS, ...customWeights }` spread in
`calculateVibeScore`: supplied fields replace defaults field-by-field. -/
def mergeWeights (custom : PartialVibeFactors) : VibeFactors :=
  { safetyWeight := custom.safetyWeight.getD DEFAULT_WEIGHTS.safetyWeight
    walkabilityWeight := custom.walkabilityWeight.getD DEFAULT_WEIGHTS.walkabilityWeight
    transitWeight := custom.transitWeight.getD DEFAULT_WEIGHTS.transitWeight
    amenitiesWeight := custom.amenitiesWeight.getD DEFAULT_WEIGHTS.amenitiesWeight }

/-- `totalWeight` in `calculateVibeScore`. -/
def totalWeight (w : VibeFactors) : ℚ :=
  w.safetyWeight + w.walkabilityWeight + w.transitWeight + w.amenitiesWeight

/-- `normalizedWeights` in `calculateVibeScore`: each weight divided by
the total.  JS divides floats (0/0 = NaN); in ℚ, division by zero
yields 0 — in both models the all-zero total breaks the sum-to-1 claim. -/
def normalizeWeights (w : VibeFactors) : VibeFactors :=
  { safetyWeight := w.safetyWeight / totalWeight w
    walkabilityWeight := w.walkabilityWeight / totalWeight w
    transitWeight := w.transitWeight / totalWeight w
    amenitiesWeight := w.amenitiesWeight / totalWeight w }

/-- The sum of the four components of a `VibeFactors` (the quantity the
spec's invariant constrains on the result's `factors` field). -/
def factorsSum (w : VibeFactors) : ℚ :=
  w.safetyWeight + w.walkabilityWeight + w.transitWeight + w.amenitiesWeight

/-- The weight override that supplies every field as 0.  Accepted by the
public interface (the zod schema allows each field in [0,1]). -/
def allZeroOverride : PartialVibeFactors :=
  { safetyWeight := some 0, walkabilityWeight := some 0,
    transitWeight := some 0, amenitiesWeight := some 0 }

/-! ## SafetyScorer (src/unnamed/part_004, fbi-crime service) -/

/-- A jurisdiction's crime-rate vector (counts per 100k residents). -/
structure CrimeRates where
  violentCrime : ℚ
  propertyCrime : ℚ
  murder : ℚ
  robbery : ℚ
  assault : ℚ
  burglary : ℚ
  larceny : ℚ
  vehicleTheft : ℚ
  deriving Repr, DecidableEq

/-- The per-subtype breakdown of a `SafetyScore` (fields murder..vehicleTheft). -/
structure SafetyBreakdown where
  murder : ℚ
  robbery : ℚ
  assault : ℚ
  burglary : ℚ
  theft : ℚ
  vehicleTheft : ℚ
  deriving Repr, DecidableEq

/-- The score-relevant fields of the `SafetyScore` built by
`calculateSafetyScore` (grades, trend and metadata strings omitted). -/
structure SafetyScoreResult where
  overall : ℤ
  vsNational : ℤ
  crimeTotal : ℚ
  breakdown : SafetyBreakdown
  deriving Repr, DecidableEq

/-- `rateToScore` from the fbi-crime service: 100 for a non-positive
rate, else `clamp(round(100 - (rate/national)*50), 0, 100)`.  Note the
source rounds before clamping. -/
def rateToScore (rate national : ℚ) : ℚ :=
  if rate ≤ 0 then 100
  else max 0 (min 100 ((roundJS (100 - rate / national * 50) : ℚ)))

/-- The `|| 1` guard applied when looking up a national average inside
the weighted loop of `calculateSafetyScore` (a zero/falsy entry reads
as 1). -/
def natGuard (n : ℚ) : ℚ := if n = 0 then 1 else n

/-- One `metricScore` of the weighted loop in `calculateSafetyScore`:
100 for a non-positive rate, else the unrounded clamped linear score. -/
def metricScore (rate national : ℚ) : ℚ :=
  if rate ≤ 0 then 100
  else max 0 (min 100 (100 - rate / national * 50))

/-- The weighted score accumulated by `calculateSafetyScore`, iterating
the weights record in insertion order (murder 0.20, robbery 0.15,
assault 0.15, burglary 0.15, larceny 0.10, vehicleTheft 0.10,
violentCrime 0.10, propertyCrime 0.05). -/
def weightedSafetyScore (r nat : CrimeRates) : ℚ :=
  metricScore r.murder (natGuard nat.murder) * (20/100) +
  metricScore r.robbery (natGuard nat.robbery) * (15/100) +
  metricScore r.assault (natGuard nat.assault) * (15/100) +
  metricScore r.burglary (natGuard nat.burglary) * (15/100) +
  metricScore r.larceny (natGuard nat.larceny) * (10/100) +
  metricScore r.vehicleTheft (natGuard nat.vehicleTheft) * (10/100) +
  metricScore r.violentCrime (natGuard nat.violentCrime) * (10/100) +
  metricScore r.propertyCrime (natGuard nat.propertyCrime) * (5/100)

/-- `calculateSafetyScore` from the fbi-crime service, with the national
baseline vector passed explicitly (`NATIONAL_AVERAGES` in the source). -/
def calculateSafetyScore (r nat : CrimeRates) : SafetyScoreResult :=
  let score := roundJS (weightedSafetyScore r nat)
  let totalCrimeRate := r.violentCrime + r.propertyCrime
  let nationalTotal := nat.violentCrime + nat.propertyCrime
  { overall := score
    vsNational := roundJS ((totalCrimeRate - nationalTotal) / nationalTotal * 100)
    crimeTotal := totalCrimeRate
    breakdown :=
      { murder := rateToScore r.murder nat.murder
        robbery := rateToScore r.robbery nat.robbery
        assault := rateToScore r.assault nat.assault
        burglary := rateToScore r.burglary nat.burglary
        theft := rateToScore r.larceny nat.larceny
        vehicleTheft := rateToScore r.vehicleTheft nat.vehicleTheft } }

/-! ## Confidence tier (vibe.ts, calculateConfidence) -/

/-- The number of data-completeness signals counted by
`calculateConfidence` (dataPoints accumulator). -/
def confDataPoints (safetyOverall walkScore transitScore : ℚ) (poiCount : ℕ) : ℕ :=
  (if 0 < safetyOverall then 1 else 0) +
  (if 0 < walkScore then 1 else 0) +
  (if 0 < transitScore then 1 else 0) +
  (if 0 < poiCount then 1 else 0)

/-- The quality total accumulated by `calculateConfidence`: safety
counts 1 with a detailed crime breakdown (`crimeRates.total > 0`) else
0.7; walk and transit count 1 when present; the POI signal counts 1
with at least 10 POIs else 0.5. -/
def confQuality (safetyOverall crimeTotal walkScore transitScore : ℚ) (poiCount : ℕ) : ℚ :=
  (if 0 < safetyOverall then (if 0 < crimeTotal then 1 else 7/10) else 0) +
  (if 0 < walkScore then 1 else 0) +
  (if 0 < transitScore then 1 else 0) +
  (if 0 < poiCount then (if 10 ≤ poiCount then 1 else 1/2) else 0)

/-- The ratio-to-tier mapping of `calculateConfidence`. -/
def confidenceTier (ratio : ℚ) : String :=
  if ratio ≥ 8/10 then "high"
  else if ratio ≥ 1/2 then "medium"
  else "low"

/-- `calculateConfidence` from vibe.ts: the ratio is
`quality / dataPoints` when `dataPoints >= 4`, else `quality / 4`. -/
def calculateConfidence (safetyOverall crimeTotal walkScore transitScore : ℚ)
    (poiCount : ℕ) : String :=
  let dataPoints := confDataPoints safetyOverall walkScore transitScore poiCount
  let quality := confQuality safetyOverall crimeTotal walkScore transitScore poiCount
  confidenceTier (if 4 ≤ dataPoints then quality / dataPoints else quality / 4)

/-- Modelled from the spec: the confidence computation as the spec
states it, dividing the accumulated quality by the number of signals
considered (4, or fewer if some are absent). -/
def calculateConfidenceSpec (safetyOverall crimeTotal walkScore transitScore : ℚ)
    (poiCount : ℕ) : String :=
  let dataPoints := confDataPoints safetyOverall walkScore transitScore poiCount
  let quality := confQuality safetyOverall crimeTotal walkScore transitScore poiCount
  confidenceTier (quality / dataPoints)

/-! ## Pros/cons generation (vibe.ts, generatePros / generateCons) -/

/-- A fallback POI used only under a nonempty-list guard (the source
indexes `xs[0]` after checking `xs.length >= 1`). -/
def dummyPOI : POI := { id := "", name := "", category := "", distance := 0 }

/-- The `poisByCategory` grouping of generatePros/generateCons read back
for one category (JS `(pois || []).reduce(...)[cat] || []`, preserving
input order). -/
def poisOfCat (pois : List POI) (cat : String) : List POI :=
  pois.filter (fun p => p.category == cat)

/-- `generatePros` from vibe.ts. -/
def generatePros (b : Breakdown) (amenities : AmenitiesScore) (pois : List POI) :
    List String :=
  let pros : List String := []
  let pros :=
    if b.safety ≥ 80 then pros ++ ["Excellent safety record with very low crime rates"]
    else if b.safety ≥ 65 then pros ++ ["Above-average safety compared to metro area"]
    else pros
  let highlights := amenities.highlights
  let pros :=
    if 3 ≤ highlights.groceryStores then
      let stores := ((poisOfCat pois "grocery").take 3).map (fun p => p.name)
        |>.filter (fun n => n != "")
      let storesJoined := String.intercalate ", " stores
      let storeList := if 0 < stores.length then " (" ++ storesJoined ++ ")" else ""
      let g := highlights.groceryStores
      pros ++ [s!"{g} grocery stores nearby{storeList}"]
    else if 1 ≤ highlights.groceryStores then
      match amenities.nearestByCategory "grocery" with
      | some ng =>
        let dist := if ng.distance ≠ 0 then s!" {ng.distance}mi away" else ""
        let nm := ng.name
        pros ++ [s!"Grocery access: {nm}{dist}"]
      | none => pros
    else pros
  let pros :=
    if 20 ≤ highlights.restaurants then
      let r := highlights.restaurants
      pros ++ [s!"Exceptional dining scene with {r}+ restaurants"]
    else if 10 ≤ highlights.restaurants then
      let r := highlights.restaurants
      pros ++ [s!"Great restaurant variety ({r} nearby options)"]
    else if 5 ≤ highlights.restaurants then
      let r := highlights.restaurants
      pros ++ [s!"{r} restaurants within walking distance"]
    else pros
  let gyms := poisOfCat pois "gym"
  let pros :=
    if 3 ≤ gyms.length then
      let gymNames := String.intercalate ", "
        ((gyms.take 2).map (fun p => p.name) |>.filter (fun n => n != ""))
      let gl := gyms.length
      pros ++ [s!"{gl} fitness centers including {gymNames}"]
    else if 1 ≤ gyms.length then
      let g0 := (gyms.headD dummyPOI).name
      pros ++ [s!"Fitness access: {g0} nearby"]
    else pros
  let pharmacies := poisOfCat pois "pharmacy"
  let healthcare := poisOfCat pois "healthcare"
  let totalHealth := pharmacies.length + healthcare.length
  let pros :=
    if 5 ≤ totalHealth then
      let names := String.intercalate ", "
        (((pharmacies ++ healthcare).take 2).map (fun p => p.name) |>.filter (fun n => n != ""))
      pros ++ [s!"{totalHealth} healthcare facilities ({names})"]
    else if 1 ≤ pharmacies.length then
      let p0 := (pharmacies.headD dummyPOI).name
      pros ++ [s!"Pharmacy nearby: {p0}"]
    else pros
  let pros :=
    if b.walkability ≥ 85 then
      pros ++ ["Walker\x27s paradise - daily errands do not require a car"]
    else if b.walkability ≥ 70 then
      pros ++ ["Very walkable - most errands accomplished on foot"]
    else pros
  let pros :=
    if b.transit ≥ 80 then pros ++ ["Excellent public transit with frequent service"]
    else if b.transit ≥ 60 then pros ++ ["Good public transit connections"]
    else pros
  let parks := poisOfCat pois "park"
  let pros :=
    if 3 ≤ parks.length then
      let parkNames := (parks.take 2).map (fun p => p.name)
        |>.filter (fun n => n != "" && n != "Park")
      let namesList :=
        if 0 < parkNames.length then " (" ++ String.intercalate ", " parkNames ++ ")" else ""
      let pl := parks.length
      pros ++ [s!"{pl} parks and green spaces{namesList}"]
    else pros
  let banks := poisOfCat pois "bank"
  let pros :=
    if 5 ≤ banks.length then
      let bl := banks.length
      pros ++ [s!"Convenient banking with {bl} locations nearby"]
    else pros
  let cafes := poisOfCat pois "cafe"
  let pros :=
    if 5 ≤ cafes.length then
      let cl := cafes.length
      pros ++ [s!"Vibrant coffee culture with {cl} cafes"]
    else pros
  let bars := poisOfCat pois "bar"
  let pros :=
    if 5 ≤ bars.length ∧ b.safety ≥ 60 then
      let brl := bars.length
      pros ++ [s!"Active nightlife scene with {brl} bars and venues"]
    else pros
  let pros :=
    if pros.length < 3 ∧ b.safety ≥ 50 then
      pros ++ ["Moderate safety with standard precautions recommended"]
    else pros
  let pros := if pros.length < 3 then pros ++ ["Established residential area"] else pros
  let pros := if pros.length < 3 then pros ++ ["Connected to surrounding neighborhoods"] else pros
  pros.take 5

/-- `generateCons` from vibe.ts. -/
def generateCons (b : Breakdown) (amenities : AmenitiesScore) (pois : List POI) :
    List String :=
  let cons : List String := []
  let highlights := amenities.highlights
  let cons :=
    if b.safety < 50 then cons ++ ["Higher than average crime rates - extra caution advised"]
    else if b.safety < 65 then cons ++ ["Safety scores below metro average"]
    else if b.safety < 80 then cons ++ ["Verify safety for specific streets before committing"]
    else cons
  let cons :=
    if amenities.isFoodDesert then
      match amenities.nearestByCategory "grocery" with
      | some ng =>
        if ng.distance ≠ 0 then
          let nm := ng.name
          let d := ng.distance
          cons ++ [s!"Food desert - nearest grocery ({nm}) is {d}mi away"]
        else cons ++ ["Food desert - no grocery stores within 1 mile"]
      | none => cons ++ ["Food desert - no grocery stores within 1 mile"]
    else cons
  let cons :=
    if b.walkability < 40 then cons ++ ["Car required for most errands - very car-dependent"]
    else if b.walkability < 55 then cons ++ ["Limited walkability - car needed for daily activities"]
    else if b.walkability < 75 then cons ++ ["A car is useful for many errands"]
    else cons
  let cons :=
    if b.transit < 30 then cons ++ ["Very limited public transit - car ownership essential"]
    else if b.transit < 50 then cons ++ ["Public transit options are sparse"]
    else if b.transit < 70 then cons ++ ["Transit frequency may require schedule planning"]
    else cons
  let gyms := poisOfCat pois "gym"
  let pharmacies := poisOfCat pois "pharmacy"
  let healthcare := poisOfCat pois "healthcare"
  let cons :=
    if gyms.length = 0 ∧ b.amenities < 70 then
      cons ++ ["No fitness centers within immediate vicinity"]
    else cons
  let cons :=
    if pharmacies.length = 0 ∧ highlights.groceryStores < 2 then
      match amenities.nearestByCategory "pharmacy" with
      | some np =>
        if np.distance ≠ 0 ∧ 1 < np.distance then
          let d := np.distance
          cons ++ [s!"Limited pharmacy access - nearest is {d}mi away"]
        else cons
      | none => cons
    else cons
  let cons :=
    if healthcare.length = 0 ∧ pharmacies.length = 0 then
      cons ++ ["Healthcare facilities require travel - plan accordingly"]
    else cons
  let cons :=
    if b.amenities < 40 ∧ ¬amenities.isFoodDesert then
      let t := highlights.totalPOIs
      cons ++ [s!"Limited amenities overall - only {t} services nearby"]
    else if b.amenities < 65 ∧ highlights.restaurants < 5 then
      cons ++ ["Dining options are limited - fewer restaurants than urban areas"]
    else cons
  let cons :=
    if cons.length < 2 then
      cons ++ ["Visit the area at different times to assess noise and activity levels"]
    else cons
  let cons :=
    if cons.length < 2 then cons ++ ["Compare with nearby neighborhoods for best value"] else cons
  cons.take 5

/-! ## Metered provider (src/unnamed/part_004, foursquare service) -/

/-- Substring test on char lists (JS `String.prototype.includes`). -/
def hasSub (s pat : List Char) : Bool :=
  match s with
  | [] => pat.isEmpty
  | _ :: tail => pat.isPrefixOf s || hasSub tail pat

/-- JS `n.includes(pat)` on strings. -/
def containsStr (s pat : String) : Bool := hasSub s.toList pat.toList

/-- JS `String.prototype.toLowerCase` (character-wise lowering). -/
def toLowerStr (s : String) : String := String.mk (s.toList.map Char.toLower)

/-- True when the lowercased name contains any of the patterns. -/
def anySub (s : String) (pats : List String) : Bool := pats.any (fun p => containsStr s p)

/-- `mapCategory` from the foursquare service: map a Foursquare category
name to the POI category by lowercased substring matching. -/
def mapCategory (categoryName : String) : String :=
  let n := toLowerStr categoryName
  if anySub n ["restaurant", "fast food", "food court", "pizza", "mexican", "italian",
      "american", "asian", "indian", "thai", "chinese", "japanese", "korean", "greek",
      "mediterranean", "bbq", "seafood", "sandwich", "burger", "chicken", "steak", "sushi",
      "taco", "diner", "buffet"] then "restaurant"
  else if anySub n ["cafe", "coffee", "bakery", "dessert", "ice cream", "donut"] then "cafe"
  else if anySub n ["bar", "pub", "nightclub", "lounge", "cocktail", "brewery", "winery",
      "whiskey"] then "bar"
  else if anySub n ["gym", "fitness", "yoga", "sport", "athletic", "crossfit", "pilates",
      "martial art", "boxing", "swim", "dance studio"] then "gym"
  else if anySub n ["grocery", "supermarket", "convenience", "bodega", "market"] then "grocery"
  else if anySub n ["park", "garden", "playground", "trail", "nature", "botanical",
      "recreation"] then "park"
  else if anySub n ["pharmacy", "drugstore", "walgreen", "cvs", "rite aid"] then "pharmacy"
  else if anySub n ["hospital", "doctor", "clinic", "medical", "health", "dentist",
      "urgent care", "veterinar"] then "healthcare"
  else if anySub n ["school", "university", "college", "education", "high school",
      "middle school", "elementary"] then "school"
  else if anySub n ["shop", "mall", "store", "boutique", "department", "clothing", "jewelry",
      "furniture", "electronics", "gift", "toy"] then "shopping"
  else if anySub n ["bank", "atm", "credit union"] then "bank"
  else if anySub n ["gas", "fuel", "petrol"] then "gas_station"
  else if anySub n ["cinema", "theater", "theatre", "museum", "gallery", "entertainment",
      "arcade", "bowling", "karaoke", "escape room", "amusement"] then "entertainment"
  else "other"

/-- A raw place record from the Foursquare search response (the fields
read by `fetchFoursquarePOIs`; display-only fields omitted). -/
structure FsqPlace where
  placeId : String
  name : String
  latitude : Option ℚ
  longitude : Option ℚ
  categories : List String
  distance : ℚ
  deriving Repr, DecidableEq

/-- Worker for merge-dedup: keep the first occurrence of each
`fsq_place_id`, dropping records with a falsy (empty) id. -/
def dedupGo (seen : List String) : List FsqPlace → List FsqPlace
  | [] => []
  | r :: rest =>
    if r.placeId = "" then dedupGo seen rest
    else if r.placeId ∈ seen then dedupGo seen rest
    else r :: dedupGo (r.placeId :: seen) rest

/-- The merge-and-deduplicate step of `fetchFoursquarePOIs` applied to
the concatenated query-group results. -/
def dedupByPlaceId (rs : List FsqPlace) : List FsqPlace := dedupGo [] rs

/-- The per-record mapping of `fetchFoursquarePOIs` to the POI format
(distance metres → miles, rounded to 2 decimals). -/
def toFsqPOI (r : FsqPlace) : POI :=
  { id := "fsq-" ++ r.placeId
    name := r.name
    category :=
      match r.categories.head? with
      | some cn => mapCategory cn
      | none => "other"
    distance := (roundJS (r.distance / (160934/100) * 100) : ℚ) / 100 }

/-- The result-shaping pipeline of `fetchFoursquarePOIs`: dedupe, drop
records lacking a name or coordinates, map to POIs, drop category
`other`. -/
def processFoursquare (rs : List FsqPlace) : List POI :=
  (((dedupByPlaceId rs).filter
      (fun r => r.name != "" && r.latitude.isSome && r.longitude.isSome)).map toFsqPOI).filter
    (fun p => p.category != "other")

/-- `QUERY_GROUPS` labels from the foursquare service (8 query groups,
one API call each). -/
def QUERY_GROUPS : List String :=
  ["restaurants", "cafes", "bars", "grocery", "pharmacy", "gyms", "parks", "banks"]

/-- `DAILY_LIMIT` from the foursquare service. -/
def DAILY_LIMIT : ℕ := 300

/-- `fetchFoursquarePOIs` control flow: `none` models the JS `null`
sentinel (not configured, insufficient daily budget, or request error);
`network` models the outcome of the batched HTTP calls, carrying the
concatenated query-group results on success. -/
def fetchFoursquarePOIs (apiKey : String) (callsToday : ℕ)
    (network : Except Unit (List FsqPlace)) : Option (List POI) :=
  if apiKey = "" then none
  else if DAILY_LIMIT < callsToday + QUERY_GROUPS.length then none
  else
    match network with
    | .error _ => none
    | .ok rs => some (processFoursquare rs)

/-! ## Orchestrator amenity-source choice (src/unnamed/part_005, router.post analyze) -/

/-- The amenity data chosen by the analyze route, plus whether the
Overpass fallback was queried. -/
structure AmenityChoice where
  amenities : List POI
  usedOverpass : Bool
  deriving Repr, DecidableEq

/-- The fallback decision of the analyze route: use Foursquare data when
it is non-null and non-empty, query Overpass only on the null sentinel,
and trust a successful-but-empty Foursquare response. -/
def chooseAmenitySource (foursquarePOIs : Option (List POI)) (overpassFetch : List POI) :
    AmenityChoice :=
  match foursquarePOIs with
  | some l => if 0 < l.length then ⟨l, false⟩ else ⟨[], false⟩
  | none => ⟨overpassFetch, true⟩

/-! ## Overpass mirror cascade (osm-amenities.ts, overpassPost / fetchAmenitiesInRadius) -/

/-- The observable outcome of POSTing one Overpass mirror. -/
inductive MirrorOutcome (α : Type) where
  | ok (data : α)
  | httpErr (status : ℕ)
  | timeout
  deriving DecidableEq, Repr

/-- `overpassPost` from osm-amenities.ts: try mirrors in order; an error
with a truthy status below 500 is rethrown at once, any other failure
records `lastError` and advances; when the mirrors are exhausted the
recorded `lastError` is thrown. -/
def overpassPost {α : Type} :
    List (MirrorOutcome α) → Option (MirrorOutcome α) → Except (Option (MirrorOutcome α)) α
  | [], lastError => .error lastError
  | .ok d :: _, _ => .ok d
  | .httpErr s :: rest, _ =>
    if s ≠ 0 ∧ s < 500 then .error (some (.httpErr s))
    else overpassPost rest (some (.httpErr s))
  | .timeout :: rest, _ => overpassPost rest (some .timeout)

/-- The `try/catch` envelope of `fetchAmenitiesInRadius`: a successful
post is processed into POIs, any thrown error yields `[]` (soft
failure).  `process` stands for the element filtering/mapping, which
involves no control flow relevant to the cascade. -/
def fetchAmenitiesInRadius {α β : Type} (outcomes : List (MirrorOutcome α))
    (process : α → List β) : List β :=
  match overpassPost outcomes none with
  | .ok d => process d
  | .error _ => []

/-! ## Result cache (src/unnamed/part_005, getCachedPulse / cachePulse) -/

/-- A `pulseCache` row: the write timestamp (`updatedAt`, maintained by
the store on every upsert) and the serialized payload, in ms since
epoch. -/
structure CacheEntry where
  updatedAt : ℤ
  pulseData : String
  deriving Repr, DecidableEq

/-- `CACHE_TTL_HOURS` from the pulse routes. -/
def CACHE_TTL_HOURS : ℤ := 24

/-- `maxAge` in `getCachedPulse` (TTL in milliseconds). -/
def cacheMaxAge : ℤ := CACHE_TTL_HOURS * 60 * 60 * 1000

/-- `getCachedPulse`: miss on an absent row, a falsy (empty) payload, an
age above the TTL, or an unparseable payload; otherwise the parsed
payload.  `parse` models `JSON.parse`, returning `none` on throw. -/
def getCachedPulse {α : Type} (cached : Option CacheEntry) (now : ℤ)
    (parse : String → Option α) : Option α :=
  match cached with
  | none => none
  | some e =>
    if e.pulseData = "" then none
    else if cacheMaxAge < now - e.updatedAt then none
    else parse e.pulseData

/-- `cachePulse`: upsert, overwriting any prior row with the new payload
and the current write timestamp. -/
def cachePulse (_store : Option CacheEntry) (now : ℤ) (pulseData : String) :
    Option CacheEntry :=
  some { updatedAt := now, pulseData := pulseData }

/-! ## Composite result assembly (vibe.ts, calculateVibeScore) -/

/-- The score fields of the `VibeScore` built by `calculateVibeScore`
(the summary/pros/cons narrative fields are produced by the embedded
`generatePros`/`generateCons` and optionally replaced by the external
narrative generator, which is out of scope here). -/
structure VibeScoreCore where
  overall : ℤ
  label : String
  confidence : String
  factors : VibeFactors
  breakdown : Breakdown
  deriving Repr, DecidableEq

/-- The deterministic scoring core of `calculateVibeScore` from vibe.ts:
merge weights, normalize, extract the breakdown, compute the weighted
overall score, classify the label, and compute the confidence tier. -/
def calculateVibeScore (safety : SafetyScoreResult) (walkScore transitScore : ℚ)
    (amenities : AmenitiesScore) (customWeights : PartialVibeFactors) : VibeScoreCore :=
  let weights := mergeWeights customWeights
  let normalizedWeights := normalizeWeights weights
  let breakdown : Breakdown :=
    { safety := (safety.overall : ℚ), walkability := walkScore,
      transit := transitScore, amenities := (amenities.overall : ℚ) }
  let overall := roundJS
    (breakdown.safety * normalizedWeights.safetyWeight +
     breakdown.walkability * normalizedWeights.walkabilityWeight +
     breakdown.transit * normalizedWeights.transitWeight +
     breakdown.amenities * normalizedWeights.amenitiesWeight)
  { overall := overall
    label := determineLabel breakdown amenities
    confidence := calculateConfidence breakdown.safety safety.crimeTotal walkScore
      transitScore amenities.highlights.totalPOIs
    factors := normalizedWeights
    breakdown := breakdown }

/-! ## Concrete sample values used by witnesses and counterexamples -/

/-- An amenities profile computed from a single grocery POI (so
`isFoodDesert` is false). -/
def groceryOnlyAmen : AmenitiesScore :=
  calculateAmenitiesScore [{ id := "1", name := "Kroger", category := "grocery", distance := 1/2 }]

/-- A concrete half-weight safety override. -/
def halfSafetyOverride : PartialVibeFactors :=
  { safetyWeight := some (1/2), walkabilityWeight := none,
    transitWeight := none, amenitiesWeight := none }

/-- A concrete positive national-baseline crime vector (violent and
property totals from the source defaults, per-subtype entries positive). -/
def sampleBaseline : CrimeRates :=
  { violentCrime := 3807/10, propertyCrime := 19544/10, murder := 5, robbery := 70,
    assault := 280, burglary := 300, larceny := 1400, vehicleTheft := 220 }

/-- An amenities profile computed from an empty POI list (zero counts,
food desert, no nearest entries). -/
def emptyAmen : AmenitiesScore := calculateAmenitiesScore []

/-- A breakdown with all sub-scores low and safety below 50 (reachable:
safety 30, walkability 30, transit 30, amenities 0). -/
def lowBreakdown : Breakdown :=
  { safety := 30, walkability := 30, transit := 30, amenities := 0 }

/-- A concrete raw Foursquare place with a name, coordinates and a
grocery category. -/
def samplePlace : FsqPlace :=
  { placeId := "abc", name := "Kroger", latitude := some 33, longitude := some (-84),
    categories := ["Grocery Store"], distance := 500 }

/-- A concrete parse function standing in for `JSON.parse` in cache
witnesses: accepts exactly the payload string "pulse". -/
def sampleParse : String → Option ℕ := fun s => if s = "pulse" then some 7 else none

/-! ## Theorems -/

/-- Helper: the label-selection loop over the priority-sorted rule list
agrees with the spec's classification table at every input. -/
theorem determineLabel_eq_labelSpecTable (b : Breakdown) (a : AmenitiesScore) :
    determineLabel b a = labelSpecTable b a := by
  unfold determineLabel labelSpecTable
  rw [show sortedRules = LABEL_RULES from rfl]
  simp only [LABEL_RULES, List.find?]
  cases h1 : a.isFoodDesert <;> simp only [h1, Bool.false_eq_true, if_false, if_true]
  cases h2 : decide (b.walkability ≥ 85 ∧ b.safety ≥ 75 ∧ b.amenities ≥ 80)
  case true =>
    simp only [h2]
    rw [if_pos (of_decide_eq_true h2)]
  case false =>
  simp only [h2]
  rw [if_neg (of_decide_eq_false h2)]
  cases h3 : decide (2 ≤ ([b.safety, b.walkability, b.transit, b.amenities].filter
      (fun s => decide (s < 40))).length)
  case true =>
    simp only [h3]
    rw [if_pos (of_decide_eq_true h3)]
  case false =>
  simp only [h3]
  rw [if_neg (of_decide_eq_false h3)]
  cases h4 : decide (b.transit ≥ 80 ∧ b.walkability < 70)
  case true =>
    simp only [h4]
    rw [if_pos (of_decide_eq_true h4)]
  case false =>
  simp only [h4]
  rw [if_neg (of_decide_eq_false h4)]
  cases h5 : decide (b.safety ≥ 85 ∧ b.walkability ≥ 50 ∧ b.walkability < 75)
  case true =>
    simp only [h5]
    rw [if_pos (of_decide_eq_true h5)]
  case false =>
  simp only [h5]
  rw [if_neg (of_decide_eq_false h5)]
  cases h6 : decide (b.safety ≥ 70 ∧ b.walkability ≥ 30 ∧ b.walkability < 70 ∧ b.amenities ≥ 50)
  case true =>
    simp only [h6]
    rw [if_pos (of_decide_eq_true h6)]
  case false =>
  simp only [h6]
  rw [if_neg (of_decide_eq_false h6)]
  cases h7 : decide (b.walkability < 40 ∧ b.safety ≥ 60 ∧ b.amenities ≥ 40)
  case true =>
    simp only [h7]
    rw [if_pos (of_decide_eq_true h7)]
  case false =>
  simp only [h7]
  rw [if_neg (of_decide_eq_false h7)]
  cases h8 : decide ((b.safety + b.walkability + b.transit + b.amenities) / 4 ≥ 50 ∧
      (b.safety + b.walkability + b.transit + b.amenities) / 4 < 70 ∧ b.safety ≥ 55)
  case true =>
    simp only [h8]
    rw [if_pos (of_decide_eq_true h8)]
  case false =>
  simp only [h8]
  rw [if_neg (of_decide_eq_false h8)]

/-- C1: `calculateVibeScore` assigns the label by evaluating the fixed
rule list in strictly decreasing priority order (100 food_desert, 90
urban_oasis, 85 needs_attention, 70 transit_hub, 65 hidden_gem, 60
suburban_comfort, 55 car_country, 50 up_and_coming, 0 balanced) with
the table's conditions, first match wins; breakdown
{safety 90, walkability 90, transit 50, amenities 85} with
isFoodDesert false yields urban_oasis, and {35, 30, 80, 85} with
isFoodDesert false yields needs_attention. -/
theorem c1_label_rule_list :
    (LABEL_RULES.map (fun r => r.priority) = [100, 90, 85, 70, 65, 60, 55, 50, 0] ∧
      List.Pairwise (fun x y => x > y) (LABEL_RULES.map (fun r => r.priority)) ∧
      sortedRules = LABEL_RULES) ∧
    (∀ b a, determineLabel b a = labelSpecTable b a) ∧
    (∀ safety w t am cw, (calculateVibeScore safety w t am cw).label =
      labelSpecTable ⟨(safety.overall : ℚ), w, t, (am.overall : ℚ)⟩ am) ∧
    (∀ a : AmenitiesScore, a.isFoodDesert = false →
      determineLabel ⟨90, 90, 50, 85⟩ a = "urban_oasis") ∧
    (∀ a : AmenitiesScore, a.isFoodDesert = false →
      determineLabel ⟨35, 30, 80, 85⟩ a = "needs_attention") := by
  refine ⟨⟨rfl, by decide, rfl⟩, determineLabel_eq_labelSpecTable, ?_, ?_, ?_⟩
  · intro safety w t am cw
    exact determineLabel_eq_labelSpecTable _ _
  · intro a h
    unfold determineLabel
    rw [show sortedRules = LABEL_RULES from rfl]
    simp only [LABEL_RULES, List.find?, h]
    rfl
  · intro a h
    unfold determineLabel
    rw [show sortedRules = LABEL_RULES from rfl]
    simp only [LABEL_RULES, List.find?, h]
    rfl

/-- C1 witness: evaluation of both example breakdowns at a concrete
non-food-desert amenities profile. -/
theorem c1_label_rule_list_witness :
    groceryOnlyAmen.isFoodDesert = false ∧
    determineLabel ⟨90, 90, 50, 85⟩ groceryOnlyAmen = "urban_oasis" ∧
    determineLabel ⟨35, 30, 80, 85⟩ groceryOnlyAmen = "needs_attention" :=
  ⟨rfl, c1_label_rule_list.2.2.2.1 groceryOnlyAmen rfl,
    c1_label_rule_list.2.2.2.2 groceryOnlyAmen rfl⟩

/-- C2 counterexample: the override supplying every weight field as 0
is accepted by the public interface, but the normalized weights in the
result's factors field then sum to 0 (JS: NaN), not 1 ± 1e-9. -/
theorem c2_weights_counterexample :
    ¬ (|factorsSum ((calculateVibeScore ⟨50, 0, 100, ⟨50, 50, 50, 50, 50, 50⟩⟩ 50 50
        groceryOnlyAmen allZeroOverride).factors) - 1| ≤ 1 / 10 ^ 9) := by
  have h0 : factorsSum ((calculateVibeScore ⟨50, 0, 100, ⟨50, 50, 50, 50, 50, 50⟩⟩ 50 50
      groceryOnlyAmen allZeroOverride).factors) = 0 := by
    norm_num [factorsSum, calculateVibeScore, normalizeWeights, mergeWeights, allZeroOverride,
      totalWeight, DEFAULT_WEIGHTS]
  rw [h0]
  norm_num

/-- C2 (amended): for every partial weight override accepted at the
public interface (each supplied field in [0,1]) other than the override
supplying all four fields as 0, the four normalized weights in the
result's factors field sum to exactly 1. -/
theorem c2_weights_sum_to_one (c : PartialVibeFactors)
    (hs : ∀ x, c.safetyWeight = some x → 0 ≤ x ∧ x ≤ 1)
    (hw : ∀ x, c.walkabilityWeight = some x → 0 ≤ x ∧ x ≤ 1)
    (ht : ∀ x, c.transitWeight = some x → 0 ≤ x ∧ x ≤ 1)
    (ha : ∀ x, c.amenitiesWeight = some x → 0 ≤ x ∧ x ≤ 1)
    (hnz : c ≠ allZeroOverride) :
    ∀ safety w t am, factorsSum ((calculateVibeScore safety w t am c).factors) = 1 := by
  intro safety w t am
  show factorsSum (normalizeWeights (mergeWeights c)) = 1
  have hnn : ∀ (o : Option ℚ) (d : ℚ), 0 ≤ d → (∀ x, o = some x → 0 ≤ x ∧ x ≤ 1) →
      0 ≤ o.getD d := by
    intro o d hd h
    cases o with
    | none => exact hd
    | some v => exact (h v rfl).1
  have h1 : 0 ≤ (mergeWeights c).safetyWeight := hnn _ _ (by norm_num [DEFAULT_WEIGHTS]) hs
  have h2 : 0 ≤ (mergeWeights c).walkabilityWeight := hnn _ _ (by norm_num [DEFAULT_WEIGHTS]) hw
  have h3 : 0 ≤ (mergeWeights c).transitWeight := hnn _ _ (by norm_num [DEFAULT_WEIGHTS]) ht
  have h4 : 0 ≤ (mergeWeights c).amenitiesWeight := hnn _ _ (by norm_num [DEFAULT_WEIGHTS]) ha
  have htot : 0 < totalWeight (mergeWeights c) := by
    by_contra hle
    push_neg at hle
    rw [totalWeight] at hle
    have e1 : (mergeWeights c).safetyWeight = 0 := by linarith
    have e2 : (mergeWeights c).walkabilityWeight = 0 := by linarith
    have e3 : (mergeWeights c).transitWeight = 0 := by linarith
    have e4 : (mergeWeights c).amenitiesWeight = 0 := by linarith
    apply hnz
    have f1 : c.safetyWeight = some 0 := by
      cases hc : c.safetyWeight with
      | none => rw [mergeWeights] at e1; rw [hc] at e1; norm_num [DEFAULT_WEIGHTS] at e1
      | some v =>
        rw [mergeWeights] at e1; rw [hc] at e1; simp only [Option.getD_some] at e1
        subst e1; rfl
    have f2 : c.walkabilityWeight = some 0 := by
      cases hc : c.walkabilityWeight with
      | none => rw [mergeWeights] at e2; rw [hc] at e2; norm_num [DEFAULT_WEIGHTS] at e2
      | some v =>
        rw [mergeWeights] at e2; rw [hc] at e2; simp only [Option.getD_some] at e2
        subst e2; rfl
    have f3 : c.transitWeight = some 0 := by
      cases hc : c.transitWeight with
      | none => rw [mergeWeights] at e3; rw [hc] at e3; norm_num [DEFAULT_WEIGHTS] at e3
      | some v =>
        rw [mergeWeights] at e3; rw [hc] at e3; simp only [Option.getD_some] at e3
        subst e3; rfl
    have f4 : c.amenitiesWeight = some 0 := by
      cases hc : c.amenitiesWeight with
      | none => rw [mergeWeights] at e4; rw [hc] at e4; norm_num [DEFAULT_WEIGHTS] at e4
      | some v =>
        rw [mergeWeights] at e4; rw [hc] at e4; simp only [Option.getD_some] at e4
        subst e4; rfl
    cases c
    simp_all [allZeroOverride]
  simp only [factorsSum, normalizeWeights]
  rw [div_add_div_same, div_add_div_same, div_add_div_same]
  exact div_self (ne_of_gt htot)

/-- C2 witness: the half-safety override normalizes to weights summing
to exactly 1. -/
theorem c2_weights_sum_to_one_witness :
    halfSafetyOverride ≠ allZeroOverride ∧
    factorsSum ((calculateVibeScore ⟨50, 0, 100, ⟨50, 50, 50, 50, 50, 50⟩⟩ 50 50
      groceryOnlyAmen halfSafetyOverride).factors) = 1 := by
  have hne : halfSafetyOverride ≠ allZeroOverride := by
    intro hc
    have := congrArg PartialVibeFactors.walkabilityWeight hc
    simp [halfSafetyOverride, allZeroOverride] at this
  refine ⟨hne, c2_weights_sum_to_one halfSafetyOverride ?_ ?_ ?_ ?_ hne _ _ _ _⟩
  · intro x hx
    rw [halfSafetyOverride] at hx
    simp at hx
    rw [← hx]
    norm_num
  · intro x hx
    rw [halfSafetyOverride] at hx
    simp at hx
  · intro x hx
    rw [halfSafetyOverride] at hx
    simp at hx
  · intro x hx
    rw [halfSafetyOverride] at hx
    simp at hx

/-- Helper: the `|| 1` national-average guard is the identity on
positive baselines. -/
theorem natGuard_of_pos (n : ℚ) (hn : 0 < n) : natGuard n = n := by
  unfold natGuard
  rw [if_neg (ne_of_gt hn)]

/-- Helper: a rate equal to a positive national baseline scores exactly
50 under `rateToScore`. -/
theorem rateToScore_self (n : ℚ) (hn : 0 < n) : rateToScore n n = 50 := by
  unfold rateToScore
  rw [if_neg (not_le.mpr hn), div_self (ne_of_gt hn)]
  norm_num [roundJS]

/-- Helper: a rate equal to a positive national baseline scores exactly
50 under the unrounded `metricScore`. -/
theorem metricScore_self (n : ℚ) (hn : 0 < n) : metricScore n n = 50 := by
  unfold metricScore
  rw [if_neg (not_le.mpr hn), div_self (ne_of_gt hn)]
  norm_num

/-- C3 counterexample: the per-subtype breakdown sub-score
(`rateToScore`) rounds to the nearest integer before clamping, so at
rate 1 with baseline 3 it returns 83, not the claim's unrounded
clamp value 250/3. -/
theorem c3_rate_to_score_counterexample :
    rateToScore 1 3 = 83 ∧ max 0 (min 100 (100 - (1:ℚ)/3 * 50)) = 250/3 ∧ (83:ℚ) ≠ 250/3 := by
  refine ⟨by norm_num [rateToScore, roundJS], by norm_num, by norm_num⟩

/-- C3 (amended): a non-positive rate scores 100; a positive rate
scores `clamp(round(100 - (r/n)*50), 0, 100)` in the breakdown
(`rateToScore`, rounded) and `clamp(100 - (r/n)*50, 0, 100)` in the
weighted loop (`metricScore`, unrounded); a rate equal to a positive
baseline scores exactly 50; and on a crime vector equal to a positive
national baseline vector every breakdown sub-score and the weighted
overall score equal exactly 50. -/
theorem c3_safety_subscores :
    (∀ r n : ℚ, r ≤ 0 → rateToScore r n = 100) ∧
    (∀ r n : ℚ, 0 < r → rateToScore r n = max 0 (min 100 ((roundJS (100 - r / n * 50) : ℚ)))) ∧
    (∀ r n : ℚ, r ≤ 0 → metricScore r n = 100) ∧
    (∀ r n : ℚ, 0 < r → metricScore r n = max 0 (min 100 (100 - r / n * 50))) ∧
    (∀ n : ℚ, 0 < n → rateToScore n n = 50) ∧
    (∀ nat : CrimeRates, 0 < nat.murder → 0 < nat.robbery → 0 < nat.assault →
      0 < nat.burglary → 0 < nat.larceny → 0 < nat.vehicleTheft → 0 < nat.violentCrime →
      0 < nat.propertyCrime →
      (calculateSafetyScore nat nat).overall = 50 ∧
      (calculateSafetyScore nat nat).breakdown = ⟨50, 50, 50, 50, 50, 50⟩) := by
  refine ⟨?_, ?_, ?_, ?_, rateToScore_self, ?_⟩
  · intro r n h
    unfold rateToScore
    rw [if_pos h]
  · intro r n h
    unfold rateToScore
    rw [if_neg (not_le.mpr h)]
  · intro r n h
    unfold metricScore
    rw [if_pos h]
  · intro r n h
    unfold metricScore
    rw [if_neg (not_le.mpr h)]
  · intro nat h1 h2 h3 h4 h5 h6 h7 h8
    constructor
    · show roundJS (weightedSafetyScore nat nat) = 50
      unfold weightedSafetyScore
      rw [natGuard_of_pos _ h1, natGuard_of_pos _ h2, natGuard_of_pos _ h3, natGuard_of_pos _ h4,
        natGuard_of_pos _ h5, natGuard_of_pos _ h6, natGuard_of_pos _ h7, natGuard_of_pos _ h8,
        metricScore_self _ h1, metricScore_self _ h2, metricScore_self _ h3, metricScore_self _ h4,
        metricScore_self _ h5, metricScore_self _ h6, metricScore_self _ h7, metricScore_self _ h8]
      norm_num [roundJS]
    · show SafetyBreakdown.mk _ _ _ _ _ _ = _
      rw [rateToScore_self _ h1, rateToScore_self _ h2, rateToScore_self _ h3,
        rateToScore_self _ h4, rateToScore_self _ h5, rateToScore_self _ h6]

/-- C3 witness: the amended claim at the concrete positive baseline. -/
theorem c3_safety_subscores_witness :
    ((-2 : ℚ) ≤ 0 ∧ rateToScore (-2) 5 = 100) ∧
    ((0:ℚ) < 5 ∧ rateToScore 5 5 = 50) ∧
    ((calculateSafetyScore sampleBaseline sampleBaseline).overall = 50 ∧
      (calculateSafetyScore sampleBaseline sampleBaseline).breakdown = ⟨50, 50, 50, 50, 50, 50⟩) :=
  ⟨⟨by norm_num, c3_safety_subscores.1 (-2) 5 (by norm_num)⟩,
    ⟨by norm_num, c3_safety_subscores.2.2.2.2.1 5 (by norm_num)⟩,
    c3_safety_subscores.2.2.2.2.2 sampleBaseline (by norm_num [sampleBaseline])
      (by norm_num [sampleBaseline]) (by norm_num [sampleBaseline])
      (by norm_num [sampleBaseline]) (by norm_num [sampleBaseline])
      (by norm_num [sampleBaseline]) (by norm_num [sampleBaseline])
      (by norm_num [sampleBaseline])⟩

/-- C4: for every POI list, the returned isFoodDesert flag is true
iff the number of POIs whose category is grocery is zero. -/
theorem c4_food_desert (pois : List POI) :
    ((calculateAmenitiesScore pois).isFoodDesert = true) ↔ countCat pois "grocery" = 0 := by
  simp [calculateAmenitiesScore, Nat.pos_iff_ne_zero]

/-- C8 (code bug evaluation): at the reachable input breakdown
{safety 30, walkability 30, transit 30, amenities 0} with the
empty-POI amenities profile, generatePros returns only 2 entries
(the claim and the source comment promise at least 3; the first
backfill bullet is gated on safety >= 50), while generateCons returns
5 entries, within its claimed 2..5 bounds. -/
theorem c8_pros_cons_eval :
    (generatePros lowBreakdown emptyAmen []).length = 2 ∧
    (generateCons lowBreakdown emptyAmen []).length = 5 := by
  constructor <;> rfl

/-- C9 counterexample: with safety, walk and transit present but zero
POIs (3 of 4 signals, quality 3), the code divides by 4 and returns
medium (3/4 = 0.75), while the claim's divide-by-signals-considered
rule would give 3/3 = 1.0, hence high. -/
theorem c9_confidence_counterexample :
    calculateConfidence 50 100 50 50 0 = "medium" ∧
    calculateConfidenceSpec 50 100 50 50 0 = "high" := by
  constructor
  · norm_num [calculateConfidence, confDataPoints, confQuality, confidenceTier]
  · norm_num [calculateConfidenceSpec, confDataPoints, confQuality, confidenceTier]

/-- C9 (amended): the confidence computation accumulates the stated
quality total but always divides by the constant 4 (the divisor is
dataPoints only when all four signals are present, and then equals 4),
mapping ratio >= 0.8 to high, >= 0.5 to medium, else low. -/
theorem c9_confidence_divides_by_four :
    ∀ s c w t p, calculateConfidence s c w t p =
      confidenceTier (confQuality s c w t p / 4) := by
  intro s c w t p
  unfold calculateConfidence confDataPoints
  by_cases h1 : 0 < s <;> by_cases h2 : 0 < w <;> by_cases h3 : 0 < t <;> by_cases h4 : 0 < p <;>
    simp [h1, h2, h3, h4]

/-- C5: the analyze route queries Overpass iff Foursquare returned the
null sentinel; a successful-but-empty Foursquare result is trusted
(no fallback, empty amenity list); and fetchFoursquarePOIs returns the
null sentinel exactly when unconfigured, over daily budget, or on a
request error. -/
theorem c5_fallback_iff_null :
    (∀ l r, (chooseAmenitySource (some l) r).usedOverpass = false) ∧
    (∀ r, chooseAmenitySource none r = ⟨r, true⟩) ∧
    (∀ r, chooseAmenitySource (some []) r = ⟨[], false⟩) ∧
    (∀ calls net, fetchFoursquarePOIs "" calls net = none) ∧
    (∀ key calls net, DAILY_LIMIT < calls + QUERY_GROUPS.length →
      fetchFoursquarePOIs key calls net = none) ∧
    (∀ key calls, key ≠ "" → calls + QUERY_GROUPS.length ≤ DAILY_LIMIT →
      fetchFoursquarePOIs key calls (.error ()) = none) := by
  refine ⟨?_, fun _ => rfl, fun _ => rfl, ?_, ?_, ?_⟩
  · intro l r
    unfold chooseAmenitySource
    dsimp only
    split <;> rfl
  · intro calls net
    simp [fetchFoursquarePOIs]
  · intro key calls net h
    unfold fetchFoursquarePOIs
    rcases eq_or_ne key "" with hk | hk
    · rw [if_pos hk]
    · rw [if_neg hk, if_pos h]
  · intro key calls hk hb
    unfold fetchFoursquarePOIs
    rw [if_neg hk, if_neg (not_lt.mpr hb)]

/-- C5 witness: concrete evaluations of the fallback decision and the
null-sentinel conditions. -/
theorem c5_fallback_iff_null_witness :
    ((chooseAmenitySource (some []) [⟨"x", "Stop", "transit", 1⟩]) = ⟨[], false⟩) ∧
    (DAILY_LIMIT < 293 + QUERY_GROUPS.length ∧
      fetchFoursquarePOIs "key" 293 (.ok [samplePlace]) = none) ∧
    ("key" ≠ "" ∧ fetchFoursquarePOIs "key" 0 (.error ()) = none) :=
  ⟨c5_fallback_iff_null.2.2.1 _,
    ⟨by decide, c5_fallback_iff_null.2.2.2.2.1 "key" 293 (.ok [samplePlace]) (by decide)⟩,
    ⟨by decide, c5_fallback_iff_null.2.2.2.2.2 "key" 0 (by decide) (by decide)⟩⟩

/-- Helper: when no mirror returns data, overpassPost throws (returns
an error) for every starting lastError. -/
theorem overpassPost_all_fail {α : Type} (outcomes : List (MirrorOutcome α)) :
    (∀ o ∈ outcomes, ∀ d, o ≠ .ok d) →
    ∀ le, ∃ e, overpassPost outcomes le = .error e := by
  induction outcomes with
  | nil => intro _ le; exact ⟨le, rfl⟩
  | cons o rest ih =>
    intro h le
    cases o with
    | ok d => exact absurd rfl (h _ (List.mem_cons_self _ _) d)
    | httpErr s =>
      rw [overpassPost]
      split_ifs with hcond
      · exact ⟨some (.httpErr s), rfl⟩
      · exact ih (fun o ho d => h o (List.mem_cons_of_mem _ ho) d) _
    | timeout =>
      rw [overpassPost]
      exact ih (fun o ho d => h o (List.mem_cons_of_mem _ ho) d) _

/-- C6: a 4xx response aborts the mirror cascade at once regardless of
the remaining mirrors; a 5xx response or a timeout advances to the
next mirror; and when every mirror fails the amenity fetch returns the
empty list instead of throwing. -/
theorem c6_mirror_cascade :
    (∀ (s : ℕ) (rest : List (MirrorOutcome (List ℚ))) le, 400 ≤ s → s < 500 →
      overpassPost (.httpErr s :: rest) le = .error (some (.httpErr s))) ∧
    (∀ (s : ℕ) (rest : List (MirrorOutcome (List ℚ))) le, 500 ≤ s →
      overpassPost (.httpErr s :: rest) le = overpassPost rest (some (.httpErr s))) ∧
    (∀ (rest : List (MirrorOutcome (List ℚ))) le,
      overpassPost (.timeout :: rest) le = overpassPost rest (some .timeout)) ∧
    (∀ (outcomes : List (MirrorOutcome (List ℚ))) (process : List ℚ → List ℚ),
      (∀ o ∈ outcomes, ∀ d, o ≠ .ok d) → fetchAmenitiesInRadius outcomes process = []) := by
  refine ⟨?_, ?_, fun _ _ => by rw [overpassPost], ?_⟩
  · intro s rest le h4 h5
    rw [overpassPost, if_pos ⟨by omega, h5⟩]
  · intro s rest le h5
    rw [overpassPost, if_neg (by omega)]
  · intro outcomes process h
    unfold fetchAmenitiesInRadius
    obtain ⟨e, he⟩ := overpassPost_all_fail outcomes h none
    rw [he]

/-- C6 witness: concrete cascade runs for a 404 abort, a 503 advance
reaching the second mirror, and an all-fail soft failure. -/
theorem c6_mirror_cascade_witness :
    ((400:ℕ) ≤ 404 ∧ (404:ℕ) < 500 ∧
      overpassPost (.httpErr 404 :: [.ok [1]]) (none : Option (MirrorOutcome (List ℚ))) =
        .error (some (.httpErr 404))) ∧
    ((500:ℕ) ≤ 503 ∧
      overpassPost (.httpErr 503 :: [.ok [1]]) (none : Option (MirrorOutcome (List ℚ))) =
        .ok [1]) ∧
    fetchAmenitiesInRadius [.httpErr 503, .timeout] (fun (d : List ℚ) => d) = [] :=
  ⟨⟨by decide, by decide, c6_mirror_cascade.1 404 [.ok [1]] none (by decide) (by decide)⟩,
    ⟨by decide, by rw [c6_mirror_cascade.2.1 503 [.ok [1]] none (by decide)]; rfl⟩,
    c6_mirror_cascade.2.2.2 [.httpErr 503, .timeout] (fun d => d)
      (by intro o ho d; simp at ho; rcases ho with rfl | rfl <;> simp)⟩

/-- C7: the cache read returns the stored payload exactly when an entry
exists, its age is at most 24 hours, and the payload parses; an absent
entry, an expired entry and an unparseable payload each yield a miss
(none), never an error; and a put followed by a get within the TTL
window returns the stored payload. -/
theorem c7_cache_ttl :
    (∀ (α : Type) (now : ℤ) (parse : String → Option α),
      getCachedPulse none now parse = none) ∧
    (∀ (α : Type) (e : CacheEntry) (now : ℤ) (parse : String → Option α),
      cacheMaxAge < now - e.updatedAt → getCachedPulse (some e) now parse = none) ∧
    (∀ (α : Type) (e : CacheEntry) (now : ℤ) (parse : String → Option α),
      parse e.pulseData = none → getCachedPulse (some e) now parse = none) ∧
    (∀ (α : Type) (e : CacheEntry) (now : ℤ) (parse : String → Option α) (p : α),
      parse "" = none → now - e.updatedAt ≤ cacheMaxAge → parse e.pulseData = some p →
      getCachedPulse (some e) now parse = some p) ∧
    (∀ (α : Type) (store : Option CacheEntry) (now nowLater : ℤ) (payload : String)
      (parse : String → Option α) (p : α),
      parse payload = some p → payload ≠ "" → nowLater - now ≤ cacheMaxAge →
      getCachedPulse (cachePulse store now payload) nowLater parse = some p) := by
  refine ⟨fun _ _ _ => rfl, ?_, ?_, ?_, ?_⟩
  · intro α e now parse h
    show (if e.pulseData = "" then none
      else if cacheMaxAge < now - e.updatedAt then none else parse e.pulseData) = none
    split_ifs <;> rfl
  · intro α e now parse h
    show (if e.pulseData = "" then none
      else if cacheMaxAge < now - e.updatedAt then none else parse e.pulseData) = none
    split_ifs <;> first | rfl | exact h
  · intro α e now parse p hemp hage hparse
    show (if e.pulseData = "" then none
      else if cacheMaxAge < now - e.updatedAt then none else parse e.pulseData) = some p
    split_ifs with h1 h2
    · rw [h1] at hparse
      rw [hemp] at hparse
      exact absurd hparse (by simp)
    · exact absurd h2 (not_lt.mpr hage)
    · exact hparse
  · intro α store now nowLater payload parse p hparse hpay hage
    show (if payload = "" then none
      else if cacheMaxAge < nowLater - now then none else parse payload) = some p
    rw [if_neg hpay, if_neg (not_lt.mpr hage)]
    exact hparse

/-- C7 witness: a concrete put/get round trip within the TTL and a miss
past the TTL. -/
theorem c7_cache_ttl_witness :
    sampleParse "pulse" = some 7 ∧ ("pulse" : String) ≠ "" ∧
    ((1000 : ℤ) - 0 ≤ cacheMaxAge) ∧
    getCachedPulse (cachePulse none 0 "pulse") 1000 sampleParse = some 7 ∧
    (cacheMaxAge < (90000000 : ℤ) - 0) ∧
    getCachedPulse (some ⟨0, "pulse"⟩) 90000000 sampleParse = none :=
  ⟨rfl, by decide, by decide,
    c7_cache_ttl.2.2.2.2 ℕ none 0 1000 "pulse" sampleParse 7 rfl (by decide) (by decide),
    by decide,
    c7_cache_ttl.2.1 ℕ ⟨0, "pulse"⟩ 90000000 sampleParse (by decide)⟩

/-- C10: every POI returned by the Foursquare fetch pipeline has a
category different from `other`, and arises from a deduplicated record
with a nonempty name and both coordinates; records that fail those
checks or map to `other` are dropped. -/
theorem c10_no_other_category :
    ∀ (rs : List FsqPlace) (p : POI), p ∈ processFoursquare rs →
      p.category ≠ "other" ∧
      ∃ r ∈ dedupByPlaceId rs, r.name ≠ "" ∧ r.latitude.isSome ∧ r.longitude.isSome ∧
        p = toFsqPOI r := by
  intro rs p hp
  unfold processFoursquare at hp
  rw [List.mem_filter] at hp
  obtain ⟨hmap, hcat⟩ := hp
  constructor
  · simpa using hcat
  · rw [List.mem_map] at hmap
    obtain ⟨r, hr, hpr⟩ := hmap
    rw [List.mem_filter] at hr
    obtain ⟨hrd, hflt⟩ := hr
    simp only [Bool.and_eq_true, bne_iff_ne, ne_eq] at hflt
    obtain ⟨⟨hn, hlat⟩, hlng⟩ := hflt
    exact ⟨r, hrd, hn, hlat, hlng, hpr.symm⟩

/-- C10 witness: a concrete grocery place passes the pipeline and its
category is not `other`. -/
theorem c10_no_other_category_witness :
    processFoursquare [samplePlace] = [toFsqPOI samplePlace] ∧
    (toFsqPOI samplePlace).category ≠ "other" :=
  ⟨rfl, (c10_no_other_category [samplePlace] (toFsqPOI samplePlace)
    (by rw [show processFoursquare [samplePlace] = [toFsqPOI samplePlace] from rfl]
        exact List.mem_singleton.mpr rfl)).1⟩

end CityPulse
